import Mathlib

/-!
# go-sync-adm-tools: `DeleteUserData` and the `delete` command

A shallow embedding of `dynamo/dynamo.go` and `main.go`.

The remote table is a list of items in the store's own order.  Go closures
that mutate a captured variable become explicit state passing, Go `error`
values become `Option GoError` (`none` is `nil`), and every request that the
program sends to the service is answered by the `Service` of the call: it
fixes where the query result is cut into pages and which requests are
rejected.
-/

set_option autoImplicit false

namespace GoSyncAdm

/-! ## Errors -/

/-- A Go `error`: a leaf error of the SDK, or `fmt.Errorf(pre + "%w", cause)`. -/
inductive GoError where
  | base (msg : String)
  | wrap (pre : String) (cause : GoError)
deriving DecidableEq, Repr

namespace GoError

/-- The `Error()` method: the message, with `%w` replaced by the cause's message. -/
def Error : GoError → String
  | base msg => msg
  | wrap pre cause => pre ++ cause.Error

/-- The `errors.Unwrap` view of an error. -/
def Unwrap : GoError → Option GoError
  | base _ => none
  | wrap _ cause => some cause

end GoError

/-- The call `fmt.Errorf(pre + "%w", err)`. -/
def Errorf (pre : String) (err : GoError) : GoError := GoError.wrap pre err

/-! ## Data model -/

/-- The key projection `ClientID, ID` (`projPk`) of an item. -/
structure Key where
  ClientID : String
  ID : String
deriving DecidableEq, Repr

/-- An item of the table: the composite key, the optional `TTL` attribute and
every other attribute as an association list. -/
structure Item where
  ClientID : String
  ID : String
  TTL : Option Int
  payload : List (String × String)
deriving DecidableEq, Repr

/-- The table named by `table`, in the store's order. -/
abbrev Table := List Item

/-- The key of an item. -/
def Item.key (it : Item) : Key := ⟨it.ClientID, it.ID⟩

/-- The item with its `TTL` attribute removed: all that is not `TTL`. -/
def Item.dropTTL (it : Item) : Item := { it with TTL := none }

/-! ## The remote service -/

/-- What the service answers to one page request of a query. -/
inductive PageResult where
  | ok (items : List Key)
  | fail (cause : GoError)
deriving DecidableEq, Repr

/-- The behaviour of the service during one call of `DeleteUserData`:
`cuts` are the sizes of the pages that precede the final page of the query
result, `queryErr n` is the error (if any) answered to the `n`-th page
request, `updateErr n` the error (if any) answered to the `n`-th `UpdateItem`
request. -/
structure Service where
  cuts : List Nat
  queryErr : Nat → Option GoError
  updateErr : Nat → Option GoError

/-- The result of the query built at `dynamo.go:35-48`: key condition
`ClientID = clientID`, projection `ClientID, ID`. -/
def Query (tbl : Table) (clientID : String) : List Key :=
  (tbl.filter (fun it => it.ClientID = clientID)).map Item.key

/-- The pages into which `cuts` divides a query result: one page per cut,
then a final page with the remainder. -/
def paginate : List Nat → List Key → List (List Key)
  | [], ks => [ks]
  | c :: cs, ks => ks.take c :: paginate cs (ks.drop c)

/-- The answers of the service to the successive page requests of a query
whose full result is `ks`, the first request being number `n`. -/
def respond (queryErr : Nat → Option GoError) : Nat → List Nat → List Key → List PageResult
  | n, [], ks =>
    [match queryErr n with
      | some e => PageResult.fail e
      | none => PageResult.ok ks]
  | n, c :: cs, ks =>
    (match queryErr n with
      | some e => PageResult.fail e
      | none => PageResult.ok (ks.take c)) :: respond queryErr (n + 1) cs (ks.drop c)

/-- The SDK's `QueryPages` over the answers of the service: it requests the
pages in order, stops with the error of a failed request, calls `fn` once per
page with `last = true` only on the final page, and stops paging as soon as
`fn` returns `false`.  The variables captured by the callback are the state
`σ`. -/
def QueryPages {σ : Type} (fn : σ → List Key → Bool → σ × Bool) :
    List PageResult → σ → σ × Option GoError
  | [], s => (s, none)
  | PageResult.fail e :: _, s => (s, some e)
  | PageResult.ok items :: rest, s =>
    if (fn s items rest.isEmpty).2 then QueryPages fn rest (fn s items rest.isEmpty).1
    else ((fn s items rest.isEmpty).1, none)

/-- The effect on the table of an accepted `UpdateItem` with the update
expression `SET TTL = ttl`: the item with this key gets the attribute; when
there is no such item the service creates one from the key. -/
def setTTL (tbl : Table) (key : Key) (ttl : Int) : Table :=
  if tbl.any (fun it => it.key = key) then
    tbl.map (fun it => if it.key = key then { it with TTL := some ttl } else it)
  else
    tbl ++ [{ ClientID := key.ClientID, ID := key.ID, TTL := some ttl, payload := [] }]

/-- The SDK's `UpdateItem`: a rejected request leaves the table as it is. -/
def UpdateItem (verdict : Option GoError) (tbl : Table) (key : Key) (ttl : Int) :
    Table × Option GoError :=
  match verdict with
  | some e => (tbl, some e)
  | none => (setTTL tbl key ttl, none)

/-! ## `DeleteUserData` -/

/-- The callback of `dynamo.go:52-55`: append the page to `keys`, return `last`. -/
def collect (keys : List Key) (items : List Key) (last : Bool) : List Key × Bool :=
  (keys ++ items, last)

/-- The loop of `dynamo.go:66-78` from request number `n` on: the table after
it, the keys for which `UpdateItem` was called, and the error it returned with. -/
def updateLoop (updateErr : Nat → Option GoError) (ttl : Int) :
    Nat → List Key → Table → Table × List Key × Option GoError
  | _, [], tbl => (tbl, [], none)
  | n, key :: rest, tbl =>
    match UpdateItem (updateErr n) tbl key ttl with
    | (tbl', some err) => (tbl', [key], some (Errorf "error updating ttl: " err))
    | (tbl', none) =>
      let r := updateLoop updateErr ttl (n + 1) rest tbl'
      (r.1, key :: r.2.1, r.2.2)

/-- What a call of `DeleteUserData` leaves behind: the table, the keys for
which `UpdateItem` was called (in order), the lines printed, and the returned
error. -/
structure Outcome where
  table : Table
  updates : List Key
  stdout : List String
  err : Option GoError
deriving DecidableEq, Repr

/-- The keys and the error with which `QueryPages` leaves `dynamo.go:51-55`. -/
def queryKeys (svc : Service) (tbl : Table) (clientID : String) :
    List Key × Option GoError :=
  QueryPages collect (respond svc.queryErr 0 svc.cuts (Query tbl clientID)) []

/-- The method `DeleteUserData` of `dynamo.go:32-82`.  Building the two
expressions cannot fail (the key condition and the update are well formed). -/
def DeleteUserData (svc : Service) (tbl : Table) (clientID : String) (ttl : Int) : Outcome :=
  match (queryKeys svc tbl clientID).2 with
  | some err =>
    { table := tbl, updates := [],
      stdout := ["Deleting user data for clientID " ++ clientID],
      err := some (Errorf "error doing query: " err) }
  | none =>
    match (updateLoop svc.updateErr ttl 0 (queryKeys svc tbl clientID).1 tbl).2.2 with
    | some err =>
      { table := (updateLoop svc.updateErr ttl 0 (queryKeys svc tbl clientID).1 tbl).1,
        updates := (updateLoop svc.updateErr ttl 0 (queryKeys svc tbl clientID).1 tbl).2.1,
        stdout := ["Deleting user data for clientID " ++ clientID],
        err := some err }
    | none =>
      { table := (updateLoop svc.updateErr ttl 0 (queryKeys svc tbl clientID).1 tbl).1,
        updates := (updateLoop svc.updateErr ttl 0 (queryKeys svc tbl clientID).1 tbl).2.1,
        stdout := ["Deleting user data for clientID " ++ clientID,
          "Successfully set ttl for " ++
            toString (queryKeys svc tbl clientID).1.length ++ " records"],
        err := none }

/-! ## `NewDynamo` and `main` -/

/-- The `aws.Config` built by `NewDynamo`. -/
structure Config where
  Region : String
  Endpoint : String
deriving DecidableEq, Repr

/-- The client returned by `NewDynamo`. -/
structure Dynamo where
  config : Config
deriving DecidableEq, Repr

/-- The function `NewDynamo` of `dynamo.go:85-107`; `getenv` is `os.Getenv`
and `NewSession` the error (if any) of `session.NewSession`. -/
def NewDynamo (getenv : String → String) (NewSession : Config → Option GoError) :
    Except GoError Dynamo :=
  let region := if getenv "AWS_REGION" = "" then "us_west2" else getenv "AWS_REGION"
  let endpoint :=
    if getenv "AWS_ENDPOINT" = "" then "http://localhost:8000" else getenv "AWS_ENDPOINT"
  match NewSession { Region := region, Endpoint := endpoint } with
  | some err => Except.error (Errorf "error creating new AWS session: " err)
  | none => Except.ok { config := { Region := region, Endpoint := endpoint } }

/-- The constant `ttl = time.Hour`, in seconds. -/
def ttl : Int := 3600

/-- The exit status of a Go program that ends in an unrecovered panic. -/
def panicExit : Nat := 2

/-- How the command ends: the lines printed to standard output, the exit
code of the process, and the table it leaves. -/
structure Exit where
  stdout : List String
  code : Nat
  table : Table
deriving DecidableEq, Repr

/-- The function `main` of `main.go:15-39`.  `args` is `os.Args`, `now` is
`time.Now().Unix()`.  When `NewDynamo` failed, `db` is nil and
`db.DeleteUserData` panics at `dynamo.QueryPages`, after its first line of
output. -/
def main (args : List String) (getenv : String → String)
    (NewSession : Config → Option GoError) (now : Int) (svc : Service) (tbl : Table) : Exit :=
  match args with
  | [] => { stdout := ["unsupported commands"], code := 1, table := tbl }
  | [_] => { stdout := ["unsupported commands"], code := 1, table := tbl }
  | _ :: cmd :: rest =>
    let db := NewDynamo getenv NewSession
    let printed : List String :=
      match db with
      | Except.error err => ["Initialize dynamoDB session failed: " ++ err.Error]
      | Except.ok _ => []
    if cmd = "delete" then
      match rest with
      | [] => { stdout := printed ++ ["missing ClientID arg"], code := 1, table := tbl }
      | clientID :: _ =>
        match db with
        | Except.error _ =>
          { stdout := printed ++ ["Deleting user data for clientID " ++ clientID],
            code := panicExit, table := tbl }
        | Except.ok _ =>
          let out := DeleteUserData svc tbl clientID (now + ttl)
          match out.err with
          | some err =>
            { stdout := printed ++ out.stdout ++ [err.Error], code := 0, table := out.table }
          | none => { stdout := printed ++ out.stdout, code := 0, table := out.table }
    else
      { stdout := printed ++ ["unsupported commands"], code := 1, table := tbl }

/-! ## Descriptions used in the statements -/

/-- The table in which exactly the items with a key in `ks` carry `TTL = ttl`
and everything else is as in `tbl`. -/
def withTTL (ks : List Key) (ttl : Int) (tbl : Table) : Table :=
  tbl.map (fun it => if it.key ∈ ks then { it with TTL := some ttl } else it)

/-- The table after accepted updates of the keys `ks`, in order. -/
def applied (tbl : Table) (ks : List Key) (ttl : Int) : Table :=
  ks.foldl (fun tb k => setTTL tb k ttl) tbl

/-- The first page of a query result cut at `cuts`. -/
def firstPage (cuts : List Nat) (ks : List Key) : List Key :=
  match cuts with
  | [] => ks
  | c :: _ => ks.take c

/-- A service that accepts every request and delivers a query result whole. -/
def quiet : Service := { cuts := [], queryErr := fun _ => none, updateErr := fun _ => none }

/-! ## Fixtures -/

/-- The items of `TestDeleteUserData`, in the order of the test's scan. -/
def testItems : Table :=
  [ { ClientID := "client1", ID := "123", TTL := none, payload := [] },
    { ClientID := "client1", ID := "456", TTL := none, payload := [] },
    { ClientID := "client1", ID := "client1", TTL := none, payload := [] },
    { ClientID := "client2", ID := "123", TTL := none, payload := [] },
    { ClientID := "client2", ID := "client2", TTL := none, payload := [] } ]

/-- The `expectedItems` of `TestDeleteUserData`, in the same order. -/
def expectedItems : Table :=
  [ { ClientID := "client1", ID := "123", TTL := some 12345678, payload := [] },
    { ClientID := "client1", ID := "456", TTL := some 12345678, payload := [] },
    { ClientID := "client1", ID := "client1", TTL := some 12345678, payload := [] },
    { ClientID := "client2", ID := "123", TTL := none, payload := [] },
    { ClientID := "client2", ID := "client2", TTL := none, payload := [] } ]

/-- A partition `client1` of two items. -/
def twoItems : Table :=
  [ { ClientID := "client1", ID := "a", TTL := none, payload := [] },
    { ClientID := "client1", ID := "b", TTL := none, payload := [] } ]

/-- A service that accepts every request and ends the first page of a query
result after one key. -/
def twoPages : Service := { cuts := [1], queryErr := fun _ => none, updateErr := fun _ => none }

/-- A service that ends the first page after one key and rejects the request
for the second page. -/
def secondPageFails : Service :=
  { cuts := [1],
    queryErr := fun n => if n = 1 then some (GoError.base "RequestError") else none,
    updateErr := fun _ => none }

/-- A service that rejects the first page request. -/
def queryFails : Service :=
  { cuts := [], queryErr := fun _ => some (GoError.base "RequestError"),
    updateErr := fun _ => none }

/-- A service that delivers the result whole and rejects the first update only. -/
def firstUpdateFails : Service :=
  { cuts := [],
    queryErr := fun _ => none,
    updateErr := fun n => if n = 0 then some (GoError.base "rejected") else none }

/-- A service that delivers the result whole and rejects the second update only. -/
def secondUpdateFails : Service :=
  { cuts := [],
    queryErr := fun _ => none,
    updateErr := fun n => if n = 1 then some (GoError.base "rejected") else none }

/-! ## The query -/

theorem respond_ne_nil (queryErr : Nat → Option GoError) (n : Nat) (cuts : List Nat)
    (ks : List Key) : respond queryErr n cuts ks ≠ [] := by
  cases cuts <;> simp [respond]

/-- The pages of `paginate` are a division of the result: nothing is lost,
nothing is repeated. -/
theorem paginate_join (cuts : List Nat) (ks : List Key) : (paginate cuts ks).flatten = ks := by
  induction cuts generalizing ks with
  | nil => simp [paginate]
  | cons c cs ih => simp [paginate, ih]

/-- Every division of a result into one page or more is one that some `cuts`
produce. -/
theorem paginate_surjective (pages : List (List Key)) (h : pages ≠ []) :
    ∃ cuts, paginate cuts pages.flatten = pages := by
  induction pages with
  | nil => exact absurd rfl h
  | cons pg rest ih =>
    cases rest with
    | nil => exact ⟨[], by simp [paginate]⟩
    | cons pg2 rest2 =>
      obtain ⟨cs, hcs⟩ := ih (by simp)
      refine ⟨pg.length :: cs, ?_⟩
      simp only [paginate, List.flatten_cons] at hcs ⊢
      simp [hcs]

/-- When no page request fails, the answers of the service are the pages. -/
theorem respond_ok (queryErr : Nat → Option GoError) (h : ∀ n, queryErr n = none)
    (n : Nat) (cuts : List Nat) (ks : List Key) :
    respond queryErr n cuts ks = (paginate cuts ks).map PageResult.ok := by
  induction cuts generalizing n ks with
  | nil => simp [respond, paginate, h]
  | cons c cs ih => simp [respond, paginate, h, ih]

/-- What the callback of `DeleteUserData` collects: the first page, and the
error of the first page request alone. -/
theorem queryKeys_eq (svc : Service) (tbl : Table) (clientID : String) :
    queryKeys svc tbl clientID =
      match svc.queryErr 0 with
      | some e => ([], some e)
      | none => (firstPage svc.cuts (Query tbl clientID), none) := by
  unfold queryKeys
  cases hc : svc.cuts with
  | nil =>
    cases hq : svc.queryErr 0 <;> simp [respond, QueryPages, collect, firstPage, hq]
  | cons c cs =>
    cases hq : svc.queryErr 0 with
    | some e => simp [respond, QueryPages, hq]
    | none =>
      have hne := respond_ne_nil svc.queryErr (0 + 1) cs ((Query tbl clientID).drop c)
      cases hr : respond svc.queryErr (0 + 1) cs ((Query tbl clientID).drop c) with
      | nil => exact absurd hr hne
      | cons r rs => simp [respond, QueryPages, collect, firstPage, hq, hr]

theorem firstPage_subset (cuts : List Nat) (ks : List Key) :
    ∀ k ∈ firstPage cuts ks, k ∈ ks := by
  intro k hk
  cases cuts with
  | nil => exact hk
  | cons c cs => exact List.mem_of_mem_take hk

/-- Every key that `DeleteUserData` collects is in the result of the query. -/
theorem queryKeys_mem (svc : Service) (tbl : Table) (clientID : String) :
    ∀ k ∈ (queryKeys svc tbl clientID).1, k ∈ Query tbl clientID := by
  intro k hk
  rw [queryKeys_eq] at hk
  cases hq : svc.queryErr 0 with
  | some e => simp [hq] at hk
  | none =>
    simp only [hq] at hk
    exact firstPage_subset _ _ k hk

theorem mem_Query {tbl : Table} {clientID : String} {k : Key} (h : k ∈ Query tbl clientID) :
    k.ClientID = clientID ∧ k ∈ tbl.map Item.key := by
  unfold Query at h
  rw [List.mem_map] at h
  obtain ⟨it, hit, rfl⟩ := h
  rw [List.mem_filter] at hit
  refine ⟨by simpa [Item.key] using hit.2, ?_⟩
  exact List.mem_map.mpr ⟨it, hit.1, rfl⟩

/-! ## One accepted update -/

theorem setTTL_of_mem {tbl : Table} {key : Key} (h : key ∈ tbl.map Item.key) (t : Int) :
    setTTL tbl key t = withTTL [key] t tbl := by
  have hany : tbl.any (fun it => decide (it.key = key)) = true := by
    rw [List.any_eq_true]
    obtain ⟨it, hit, hk⟩ := List.mem_map.mp h
    exact ⟨it, hit, by simpa using hk⟩
  simp [setTTL, withTTL, hany]

theorem key_stamp (c : Prop) [Decidable c] (it : Item) (t : Int) :
    (if c then { it with TTL := some t } else it).key = it.key := by
  split <;> rfl

theorem dropTTL_stamp (c : Prop) [Decidable c] (it : Item) (t : Int) :
    (if c then { it with TTL := some t } else it).dropTTL = it.dropTTL := by
  split <;> rfl

theorem withTTL_keys (ks : List Key) (t : Int) (tbl : Table) :
    (withTTL ks t tbl).map Item.key = tbl.map Item.key := by
  simp only [withTTL, List.map_map]
  apply List.map_congr_left
  intro it _
  exact key_stamp _ it t

theorem withTTL_dropTTL (ks : List Key) (t : Int) (tbl : Table) :
    (withTTL ks t tbl).map Item.dropTTL = tbl.map Item.dropTTL := by
  simp only [withTTL, List.map_map]
  apply List.map_congr_left
  intro it _
  exact dropTTL_stamp _ it t

theorem withTTL_withTTL (k : Key) (ks : List Key) (t : Int) (tbl : Table) :
    withTTL ks t (withTTL [k] t tbl) = withTTL (k :: ks) t tbl := by
  simp only [withTTL, List.map_map]
  apply List.map_congr_left
  intro it _
  simp only [Function.comp, key_stamp, List.mem_singleton, List.mem_cons]
  by_cases h1 : it.key = k <;> by_cases h2 : it.key ∈ ks <;> simp [h1, h2]

theorem stamp_frame (tbl : Table) (key : Key) (t : Int) (p : String) (hk : key.ClientID = p) :
    (tbl.map (fun it => if it.key = key then { it with TTL := some t } else it)).filter
        (fun it => it.ClientID ≠ p) = tbl.filter (fun it => it.ClientID ≠ p) := by
  induction tbl with
  | nil => rfl
  | cons it rest ih =>
    by_cases h : it.key = key
    · have hp : it.ClientID = p := by
        rw [← hk, ← h]; rfl
      simpa [List.filter_cons, h, hp] using ih
    · by_cases hp : it.ClientID = p
      · simpa [List.filter_cons, h, hp] using ih
      · simpa [List.filter_cons, h, hp] using ih

/-- An accepted update of a key of partition `p` leaves the items of every
other partition as they are. -/
theorem setTTL_frame (tbl : Table) (key : Key) (t : Int) (p : String) (hk : key.ClientID = p) :
    (setTTL tbl key t).filter (fun it => it.ClientID ≠ p) =
      tbl.filter (fun it => it.ClientID ≠ p) := by
  unfold setTTL
  split
  · exact stamp_frame tbl key t p hk
  · simp [List.filter_append, hk]

/-! ## The update loop -/

theorem applied_nil (tbl : Table) (t : Int) : applied tbl [] t = tbl := rfl

theorem applied_cons (tbl : Table) (k : Key) (ks : List Key) (t : Int) :
    applied tbl (k :: ks) t = applied (setTTL tbl k t) ks t := rfl

/-- Accepted updates of keys that are all in the table stamp exactly the
items with these keys. -/
theorem applied_eq_withTTL (ks : List Key) (t : Int) (tbl : Table)
    (h : ∀ k ∈ ks, k ∈ tbl.map Item.key) : applied tbl ks t = withTTL ks t tbl := by
  induction ks generalizing tbl with
  | nil =>
    simp only [applied_nil, withTTL, List.not_mem_nil, if_false]
    exact (List.map_id _).symm
  | cons k ks ih =>
    have hk : k ∈ tbl.map Item.key := h k (List.mem_cons_self _ _)
    rw [applied_cons, setTTL_of_mem hk, ih, withTTL_withTTL]
    intro k2 hk2
    rw [withTTL_keys]
    exact h k2 (List.mem_cons_of_mem _ hk2)

theorem applied_frame (ks : List Key) (t : Int) (tbl : Table) (p : String)
    (h : ∀ k ∈ ks, k.ClientID = p) :
    (applied tbl ks t).filter (fun it => it.ClientID ≠ p) =
      tbl.filter (fun it => it.ClientID ≠ p) := by
  induction ks generalizing tbl with
  | nil => rfl
  | cons k ks ih =>
    rw [applied_cons, ih _ (fun k2 hk2 => h k2 (List.mem_cons_of_mem _ hk2)),
      setTTL_frame _ _ _ _ (h k (List.mem_cons_self _ _))]

/-- The loop when the service accepts every update. -/
theorem updateLoop_ok (updateErr : Nat → Option GoError) (t : Int) (n : Nat) (ks : List Key)
    (tbl : Table) (h : ∀ j, j < ks.length → updateErr (n + j) = none) :
    updateLoop updateErr t n ks tbl = (applied tbl ks t, ks, none) := by
  induction ks generalizing n tbl with
  | nil => rfl
  | cons k ks ih =>
    have h0 : updateErr n = none := by simpa using h 0 (by simp)
    have hrest : ∀ j, j < ks.length → updateErr (n + 1 + j) = none := by
      intro j hj
      have := h (j + 1) (by simpa using hj)
      rwa [show n + (j + 1) = n + 1 + j by omega] at this
    simp [updateLoop, UpdateItem, h0, ih (n + 1) _ hrest, applied_cons]

/-- The loop when the update of the key at index `i` is the first that the
service rejects: it stops there. -/
theorem updateLoop_fail (updateErr : Nat → Option GoError) (t : Int) (n : Nat) (ks : List Key)
    (tbl : Table) (i : Nat) (e : GoError) (hi : i < ks.length)
    (hok : ∀ j, j < i → updateErr (n + j) = none) (hfail : updateErr (n + i) = some e) :
    updateLoop updateErr t n ks tbl =
      (applied tbl (ks.take i) t, ks.take (i + 1), some (Errorf "error updating ttl: " e)) := by
  induction ks generalizing n tbl i with
  | nil => simp at hi
  | cons k ks ih =>
    cases i with
    | zero =>
      have h0 : updateErr n = some e := by simpa using hfail
      simp [updateLoop, UpdateItem, h0, applied_nil]
    | succ i =>
      have h0 : updateErr n = none := by simpa using hok 0 (by omega)
      have hrest : ∀ j, j < i → updateErr (n + 1 + j) = none := by
        intro j hj
        have := hok (j + 1) (by omega)
        rwa [show n + (j + 1) = n + 1 + j by omega] at this
      have hf : updateErr (n + 1 + i) = some e := by
        rwa [show n + (i + 1) = n + 1 + i by omega] at hfail
      have hi2 : i < ks.length := by simpa using hi
      simp [updateLoop, UpdateItem, h0, ih (n + 1) _ i hi2 hrest hf, applied_cons]

/-- Either every update is accepted, or some update is the first rejected one. -/
theorem first_rejected (updateErr : Nat → Option GoError) (n len : Nat) :
    (∀ j, j < len → updateErr (n + j) = none) ∨
      ∃ i e, i < len ∧ (∀ j, j < i → updateErr (n + j) = none) ∧ updateErr (n + i) = some e := by
  induction len with
  | zero => left; intro j hj; omega
  | succ len ih =>
    rcases ih with hall | ⟨i, e, hi, hok, hf⟩
    · cases hl : updateErr (n + len) with
      | none =>
        left
        intro j hj
        rcases Nat.lt_succ_iff_lt_or_eq.mp hj with h | h
        · exact hall j h
        · rw [h]; exact hl
      | some e => exact Or.inr ⟨len, e, by omega, hall, hl⟩
    · exact Or.inr ⟨i, e, by omega, hok, hf⟩

/-- Whatever the service answers, the loop leaves the table after accepted
updates of the first `m` keys, for some `m`. -/
theorem updateLoop_table (updateErr : Nat → Option GoError) (t : Int) (n : Nat) (ks : List Key)
    (tbl : Table) : ∃ m, (updateLoop updateErr t n ks tbl).1 = applied tbl (ks.take m) t := by
  rcases first_rejected updateErr n ks.length with hall | ⟨i, e, hi, hok, hf⟩
  · exact ⟨ks.length, by rw [updateLoop_ok _ _ _ _ _ hall, List.take_length]⟩
  · exact ⟨i, by rw [updateLoop_fail _ _ _ _ _ i e hi hok hf]⟩

/-- The table that `DeleteUserData` leaves is the table after accepted updates
of some of the first keys it collected. -/
theorem DeleteUserData_table (svc : Service) (tbl : Table) (clientID : String) (t : Int) :
    ∃ m, (DeleteUserData svc tbl clientID t).table =
      applied tbl ((queryKeys svc tbl clientID).1.take m) t := by
  unfold DeleteUserData
  cases hq : (queryKeys svc tbl clientID).2 with
  | some e => exact ⟨0, by simp [applied_nil]⟩
  | none =>
    obtain ⟨m, hm⟩ := updateLoop_table svc.updateErr t 0 (queryKeys svc tbl clientID).1 tbl
    refine ⟨m, ?_⟩
    cases hu : (updateLoop svc.updateErr t 0 (queryKeys svc tbl clientID).1 tbl).2.2 <;>
      simpa using hm

theorem queryKeys_exist (svc : Service) (tbl : Table) (clientID : String) (m : Nat) :
    ∀ k ∈ (queryKeys svc tbl clientID).1.take m, k ∈ tbl.map Item.key :=
  fun k hk => (mem_Query (queryKeys_mem svc tbl clientID k (List.mem_of_mem_take hk))).2

theorem queryKeys_partition (svc : Service) (tbl : Table) (clientID : String) (m : Nat) :
    ∀ k ∈ (queryKeys svc tbl clientID).1.take m, k.ClientID = clientID :=
  fun k hk => (mem_Query (queryKeys_mem svc tbl clientID k (List.mem_of_mem_take hk))).1

/-- A failed query leaves no key collected. -/
theorem queryKeys_err_nil (svc : Service) (tbl : Table) (clientID : String) (e : GoError)
    (h : (queryKeys svc tbl clientID).2 = some e) : (queryKeys svc tbl clientID).1 = [] := by
  rw [queryKeys_eq] at h ⊢
  cases hq : svc.queryErr 0 with
  | some e2 => rfl
  | none => simp [hq] at h

/-- The call when the query succeeds and the update at index `i` is the first
that the service rejects. -/
theorem DeleteUserData_fail (svc : Service) (tbl : Table) (clientID : String) (t : Int)
    (i : Nat) (e : GoError) (hq : (queryKeys svc tbl clientID).2 = none)
    (hi : i < (queryKeys svc tbl clientID).1.length)
    (hok : ∀ j, j < i → svc.updateErr j = none) (hfail : svc.updateErr i = some e) :
    DeleteUserData svc tbl clientID t =
      { table := withTTL ((queryKeys svc tbl clientID).1.take i) t tbl,
        updates := (queryKeys svc tbl clientID).1.take (i + 1),
        stdout := ["Deleting user data for clientID " ++ clientID],
        err := some (Errorf "error updating ttl: " e) } := by
  have hloop := updateLoop_fail svc.updateErr t 0 (queryKeys svc tbl clientID).1 tbl i e hi
    (by simpa using hok) (by simpa using hfail)
  simp only [DeleteUserData, hq, hloop]
  rw [applied_eq_withTTL _ _ _ (queryKeys_exist svc tbl clientID i)]

/-- The call when the query succeeds and the service accepts every update. -/
theorem DeleteUserData_ok (svc : Service) (tbl : Table) (clientID : String) (t : Int)
    (hq : (queryKeys svc tbl clientID).2 = none)
    (hok : ∀ j, j < (queryKeys svc tbl clientID).1.length → svc.updateErr j = none) :
    DeleteUserData svc tbl clientID t =
      { table := withTTL (queryKeys svc tbl clientID).1 t tbl,
        updates := (queryKeys svc tbl clientID).1,
        stdout := ["Deleting user data for clientID " ++ clientID,
          "Successfully set ttl for " ++
            toString (queryKeys svc tbl clientID).1.length ++ " records"],
        err := none } := by
  have hloop := updateLoop_ok svc.updateErr t 0 (queryKeys svc tbl clientID).1 tbl
    (by simpa using hok)
  simp only [DeleteUserData, hq, hloop]
  rw [applied_eq_withTTL _ _ _
    (fun k hk => (mem_Query (queryKeys_mem svc tbl clientID k hk)).2)]

/-- When the service delivers the query result in one page and accepts every
request, every item of the partition gets the TTL and the count printed is
the size of the partition. -/
theorem DeleteUserData_one_page (svc : Service) (tbl : Table) (clientID : String) (t : Int)
    (hcuts : svc.cuts = []) (hqe : svc.queryErr 0 = none) (hue : ∀ j, svc.updateErr j = none) :
    DeleteUserData svc tbl clientID t =
      { table := withTTL (Query tbl clientID) t tbl,
        updates := Query tbl clientID,
        stdout := ["Deleting user data for clientID " ++ clientID,
          "Successfully set ttl for " ++ toString (Query tbl clientID).length ++ " records"],
        err := none } := by
  have hk : queryKeys svc tbl clientID = (Query tbl clientID, none) := by
    rw [queryKeys_eq, hqe, hcuts]; rfl
  rw [DeleteUserData_ok svc tbl clientID t (by rw [hk]) (fun j _ => hue j), hk]

theorem Query_withTTL (ks : List Key) (t : Int) (tbl : Table) (clientID : String) :
    Query (withTTL ks t tbl) clientID = Query tbl clientID := by
  unfold Query withTTL
  rw [List.filter_map, List.map_map]
  have hf : ((fun it : Item => decide (it.ClientID = clientID)) ∘
      (fun it : Item => if it.key ∈ ks then { it with TTL := some t } else it)) =
      fun it : Item => decide (it.ClientID = clientID) := by
    funext it
    simp only [Function.comp]
    split <;> rfl
  rw [hf]
  apply List.map_congr_left
  intro it _
  exact key_stamp _ it t

theorem withTTL_overwrite (ks : List Key) (t1 t2 : Int) (tbl : Table) :
    withTTL ks t2 (withTTL ks t1 tbl) = withTTL ks t2 tbl := by
  simp only [withTTL, List.map_map]
  apply List.map_congr_left
  intro it _
  simp only [Function.comp, key_stamp]
  by_cases h : it.key ∈ ks <;> simp [h]

/-- When two calls in a row are answered by the same service, which accepts
every request, the second call with `t2` leaves what one call with `t2`
leaves: the keys of the first page are stamped again. -/
theorem DeleteUserData_twice_same_service (svc : Service) (tbl : Table) (clientID : String)
    (t1 t2 : Int) (hqe : svc.queryErr 0 = none) (hue : ∀ j, svc.updateErr j = none) :
    (DeleteUserData svc (DeleteUserData svc tbl clientID t1).table clientID t2).table =
      (DeleteUserData svc tbl clientID t2).table := by
  have hq : ∀ tb : Table, (queryKeys svc tb clientID).2 = none := by
    intro tb; rw [queryKeys_eq, hqe]
  have h1 := DeleteUserData_ok svc tbl clientID t1 (hq _) (fun j _ => hue j)
  have h2 := DeleteUserData_ok svc tbl clientID t2 (hq _) (fun j _ => hue j)
  have h3 := DeleteUserData_ok svc (DeleteUserData svc tbl clientID t1).table clientID t2
    (hq _) (fun j _ => hue j)
  have hk : queryKeys svc (DeleteUserData svc tbl clientID t1).table clientID =
      queryKeys svc tbl clientID := by
    rw [h1]
    simp only [queryKeys, Query_withTTL]
  rw [h3, h2, hk]
  simp only
  rw [h1]
  exact withTTL_overwrite _ _ _ _

/-- The exit code of `delete <ClientID>` with a session that initialises is 0
whatever `DeleteUserData` returns. -/
theorem main_delete_code (a clientID : String) (rest : List String)
    (getenv : String → String) (NewSession : Config → Option GoError)
    (hs : ∀ c, NewSession c = none) (now : Int) (svc : Service) (tbl : Table) :
    (main (a :: "delete" :: clientID :: rest) getenv NewSession now svc tbl).code = 0 := by
  simp only [main, NewDynamo, hs]
  cases (DeleteUserData svc tbl clientID (now + ttl)).err <;> simp

/-! ## The claims -/

/-- C1, evaluated where it fails: the partition `client1` holds two items, the
service accepts every request and delivers the query result in two pages.
`DeleteUserData` returns no error, yet sets the TTL on the first item only and
prints a count of 1. -/
theorem DeleteUserData_two_pages_partial :
    (Query twoItems "client1").length = 2 ∧
    (DeleteUserData twoPages twoItems "client1" 12345678).err = none ∧
    (DeleteUserData twoPages twoItems "client1" 12345678).table =
      [ { ClientID := "client1", ID := "a", TTL := some 12345678, payload := [] },
        { ClientID := "client1", ID := "b", TTL := none, payload := [] } ] ∧
    (DeleteUserData twoPages twoItems "client1" 12345678).stdout =
      ["Deleting user data for clientID client1", "Successfully set ttl for 1 records"] := by
  decide

/-- C2: whatever the service answers, the items whose ClientID is not the
`clientID` of the call are the same before and after it; and in the scenario
of `TestDeleteUserData` the call leaves exactly the three `client1` items with
TTL 12345678 and the two `client2` items without a TTL. -/
theorem DeleteUserData_other_partitions :
    (∀ (svc : Service) (tbl : Table) (clientID : String) (t : Int),
      (DeleteUserData svc tbl clientID t).table.filter (fun it => it.ClientID ≠ clientID) =
        tbl.filter (fun it => it.ClientID ≠ clientID)) ∧
    (DeleteUserData quiet testItems "client1" 12345678).table = expectedItems ∧
    (DeleteUserData quiet testItems "client1" 12345678).err = none := by
  refine ⟨?_, by decide, by decide⟩
  intro svc tbl clientID t
  obtain ⟨m, hm⟩ := DeleteUserData_table svc tbl clientID t
  rw [hm]
  exact applied_frame _ t tbl clientID (queryKeys_partition svc tbl clientID m)

/-- C3, evaluated where it fails: the query result of partition `client1` is
delivered in two pages, both without error; the callback collects the key of
the first page and the key of the second page is omitted. -/
theorem queryKeys_two_pages_partial :
    Query twoItems "client1" = [⟨"client1", "a"⟩, ⟨"client1", "b"⟩] ∧
    respond twoPages.queryErr 0 twoPages.cuts (Query twoItems "client1") =
      [PageResult.ok [⟨"client1", "a"⟩], PageResult.ok [⟨"client1", "b"⟩]] ∧
    queryKeys twoPages twoItems "client1" = ([⟨"client1", "a"⟩], none) ∧
    (⟨"client1", "b"⟩ : Key) ∉ (queryKeys twoPages twoItems "client1").1 := by
  decide

/-- C4: when the paginated query reports an error, `DeleteUserData` returns
an error that wraps it, calls `UpdateItem` for no key and leaves the table as
it was. -/
theorem DeleteUserData_query_error (svc : Service) (tbl : Table) (clientID : String) (t : Int)
    (e : GoError) (h : (queryKeys svc tbl clientID).2 = some e) :
    (DeleteUserData svc tbl clientID t).err = some (Errorf "error doing query: " e) ∧
    ((DeleteUserData svc tbl clientID t).err.bind GoError.Unwrap) = some e ∧
    (DeleteUserData svc tbl clientID t).updates = [] ∧
    (DeleteUserData svc tbl clientID t).table = tbl := by
  simp [DeleteUserData, h, Errorf, GoError.Unwrap]

/-- The theorem of C4 at a service that rejects the first page request. -/
theorem DeleteUserData_query_error_witness :
    (queryKeys queryFails testItems "client1").2 = some (GoError.base "RequestError") ∧
    (DeleteUserData queryFails testItems "client1" 12345678).err =
      some (Errorf "error doing query: " (GoError.base "RequestError")) ∧
    ((DeleteUserData queryFails testItems "client1" 12345678).err.bind GoError.Unwrap) =
      some (GoError.base "RequestError") ∧
    (DeleteUserData queryFails testItems "client1" 12345678).updates = [] ∧
    (DeleteUserData queryFails testItems "client1" 12345678).table = testItems :=
  ⟨by decide,
    DeleteUserData_query_error queryFails testItems "client1" 12345678
      (GoError.base "RequestError") (by decide)⟩

/-- C5, evaluated where it fails: the first page of the query succeeds and the
service rejects the request for the second page.  `DeleteUserData` never
requests the second page: it returns no error and sets the TTL of the item of
the first page. -/
theorem DeleteUserData_second_page_fails :
    respond secondPageFails.queryErr 0 secondPageFails.cuts (Query twoItems "client1") =
      [PageResult.ok [⟨"client1", "a"⟩], PageResult.fail (GoError.base "RequestError")] ∧
    (DeleteUserData secondPageFails twoItems "client1" 12345678).err = none ∧
    (DeleteUserData secondPageFails twoItems "client1" 12345678).updates =
      [⟨"client1", "a"⟩] ∧
    (DeleteUserData secondPageFails twoItems "client1" 12345678).table =
      [ { ClientID := "client1", ID := "a", TTL := some 12345678, payload := [] },
        { ClientID := "client1", ID := "b", TTL := none, payload := [] } ] := by
  decide

/-- C6 as stated fails: the query returns the keys `a` and `b`, the service
rejects the update of `a` and would accept the update of `b`; `UpdateItem` is
called for `a` alone and `b` is left without a TTL. -/
theorem DeleteUserData_halts_at_rejected :
    queryKeys firstUpdateFails twoItems "client1" =
      ([⟨"client1", "a"⟩, ⟨"client1", "b"⟩], none) ∧
    firstUpdateFails.updateErr 1 = none ∧
    (DeleteUserData firstUpdateFails twoItems "client1" 12345678).updates =
      [⟨"client1", "a"⟩] ∧
    ¬ (∀ k ∈ (queryKeys firstUpdateFails twoItems "client1").1,
        k ∈ (DeleteUserData firstUpdateFails twoItems "client1" 12345678).updates) ∧
    (DeleteUserData firstUpdateFails twoItems "client1" 12345678).table = twoItems := by
  decide

/-- C6 as amended: when the query succeeds, `DeleteUserData` calls
`UpdateItem` for the keys in order up to and including the first one whose
update the service rejects and for none after it, the keys before that one
(all keys when no update is rejected) end with TTL `t`, and the call returns
an error exactly when the update of some key of the list is rejected. -/
theorem DeleteUserData_stops_at_first_rejected (svc : Service) (tbl : Table)
    (clientID : String) (t : Int) (hq : (queryKeys svc tbl clientID).2 = none) :
    ((DeleteUserData svc tbl clientID t).err.isSome = true ↔
      ∃ j, j < (queryKeys svc tbl clientID).1.length ∧ (svc.updateErr j).isSome = true) ∧
    (∀ i e, i < (queryKeys svc tbl clientID).1.length →
      (∀ j, j < i → svc.updateErr j = none) → svc.updateErr i = some e →
        (DeleteUserData svc tbl clientID t).updates = (queryKeys svc tbl clientID).1.take (i + 1) ∧
        (DeleteUserData svc tbl clientID t).table =
          withTTL ((queryKeys svc tbl clientID).1.take i) t tbl) ∧
    ((∀ j, j < (queryKeys svc tbl clientID).1.length → svc.updateErr j = none) →
        (DeleteUserData svc tbl clientID t).updates = (queryKeys svc tbl clientID).1 ∧
        (DeleteUserData svc tbl clientID t).table =
          withTTL (queryKeys svc tbl clientID).1 t tbl) := by
  refine ⟨?_, ?_, ?_⟩
  · rcases first_rejected svc.updateErr 0 (queryKeys svc tbl clientID).1.length with
      hall | ⟨i, e, hi, hok, hf⟩
    · have hall2 : ∀ j, j < (queryKeys svc tbl clientID).1.length → svc.updateErr j = none := by
        simpa using hall
      rw [DeleteUserData_ok svc tbl clientID t hq hall2]
      constructor
      · intro h; simp at h
      · rintro ⟨j, hj, hsome⟩
        rw [hall2 j hj] at hsome
        simp at hsome
    · rw [DeleteUserData_fail svc tbl clientID t i e hq hi (by simpa using hok)
        (by simpa using hf)]
      constructor
      · intro _
        exact ⟨i, hi, by simp [show svc.updateErr i = some e by simpa using hf]⟩
      · intro _; rfl
  · intro i e hi hok hf
    rw [DeleteUserData_fail svc tbl clientID t i e hq hi hok hf]
    exact ⟨rfl, rfl⟩
  · intro hall
    rw [DeleteUserData_ok svc tbl clientID t hq hall]
    exact ⟨rfl, rfl⟩

/-- The amended C6 at the test items and a service that rejects the second
update. -/
theorem DeleteUserData_stops_at_first_rejected_witness :
    (queryKeys secondUpdateFails testItems "client1").2 = none ∧
    ((DeleteUserData secondUpdateFails testItems "client1" 7).err.isSome = true ↔
      ∃ j, j < (queryKeys secondUpdateFails testItems "client1").1.length ∧
        (secondUpdateFails.updateErr j).isSome = true) ∧
    (∀ i e, i < (queryKeys secondUpdateFails testItems "client1").1.length →
      (∀ j, j < i → secondUpdateFails.updateErr j = none) →
      secondUpdateFails.updateErr i = some e →
        (DeleteUserData secondUpdateFails testItems "client1" 7).updates =
          (queryKeys secondUpdateFails testItems "client1").1.take (i + 1) ∧
        (DeleteUserData secondUpdateFails testItems "client1" 7).table =
          withTTL ((queryKeys secondUpdateFails testItems "client1").1.take i) 7 testItems) ∧
    ((∀ j, j < (queryKeys secondUpdateFails testItems "client1").1.length →
        secondUpdateFails.updateErr j = none) →
        (DeleteUserData secondUpdateFails testItems "client1" 7).updates =
          (queryKeys secondUpdateFails testItems "client1").1 ∧
        (DeleteUserData secondUpdateFails testItems "client1" 7).table =
          withTTL (queryKeys secondUpdateFails testItems "client1").1 7 testItems) :=
  ⟨by decide,
    DeleteUserData_stops_at_first_rejected secondUpdateFails testItems "client1" 7 (by decide)⟩

/-- C7, evaluated where it fails: every request is accepted, there is no other
writer, and 100 ≤ 200.  The first call receives the query result in one page;
the second call receives it in two pages.  The item `b` keeps the TTL 100 of
the first call, whereas one call with 200 on the initial table sets 200 on
both items. -/
theorem DeleteUserData_twice_differs :
    (DeleteUserData quiet twoItems "client1" 100).err = none ∧
    (DeleteUserData twoPages (DeleteUserData quiet twoItems "client1" 100).table
      "client1" 200).err = none ∧
    (DeleteUserData twoPages (DeleteUserData quiet twoItems "client1" 100).table
      "client1" 200).table =
      [ { ClientID := "client1", ID := "a", TTL := some 200, payload := [] },
        { ClientID := "client1", ID := "b", TTL := some 100, payload := [] } ] ∧
    (DeleteUserData quiet twoItems "client1" 200).table =
      [ { ClientID := "client1", ID := "a", TTL := some 200, payload := [] },
        { ClientID := "client1", ID := "b", TTL := some 200, payload := [] } ] := by
  decide

/-- C8, evaluated where it fails: with the arguments `delete client1` and a
session that initialises, `main` prints the error of a failed query, and of a
failed update, and the process still ends with exit code 0. -/
theorem main_exit_zero_on_error :
    (DeleteUserData queryFails testItems "client1" (1000 + ttl)).err =
      some (Errorf "error doing query: " (GoError.base "RequestError")) ∧
    main ["adm-tools", "delete", "client1"] (fun _ => "") (fun _ => none) 1000
        queryFails testItems =
      { stdout := ["Deleting user data for clientID client1",
          "error doing query: RequestError"],
        code := 0, table := testItems } ∧
    (DeleteUserData firstUpdateFails testItems "client1" (1000 + ttl)).err =
      some (Errorf "error updating ttl: " (GoError.base "rejected")) ∧
    main ["adm-tools", "delete", "client1"] (fun _ => "") (fun _ => none) 1000
        firstUpdateFails testItems =
      { stdout := ["Deleting user data for clientID client1",
          "error updating ttl: rejected"],
        code := 0, table := testItems } := by
  decide

/-- C9: whatever the service answers to the query and to the updates,
`DeleteUserData` creates no item and deletes none (the keys of the table are
the same, item by item) and changes no attribute other than TTL. -/
theorem DeleteUserData_keeps_items (svc : Service) (tbl : Table) (clientID : String)
    (t : Int) :
    (DeleteUserData svc tbl clientID t).table.map Item.key = tbl.map Item.key ∧
    (DeleteUserData svc tbl clientID t).table.map Item.dropTTL = tbl.map Item.dropTTL := by
  obtain ⟨m, hm⟩ := DeleteUserData_table svc tbl clientID t
  rw [hm, applied_eq_withTTL _ _ _ (queryKeys_exist svc tbl clientID m)]
  exact ⟨withTTL_keys _ _ _, withTTL_dropTTL _ _ _⟩

/-- C10: when the updates of the keys before index `i` are accepted and the
update of the key at index `i` is rejected with `e`, `DeleteUserData` returns
an error wrapping `e`, the items with the keys before index `i` have TTL `t`
and the rest of the table is as before the call. -/
theorem DeleteUserData_no_rollback (svc : Service) (tbl : Table) (clientID : String)
    (t : Int) (i : Nat) (e : GoError)
    (hi : i < (queryKeys svc tbl clientID).1.length)
    (hok : ∀ j, j < i → svc.updateErr j = none) (hfail : svc.updateErr i = some e) :
    (DeleteUserData svc tbl clientID t).err = some (Errorf "error updating ttl: " e) ∧
    ((DeleteUserData svc tbl clientID t).err.bind GoError.Unwrap) = some e ∧
    (DeleteUserData svc tbl clientID t).table =
      withTTL ((queryKeys svc tbl clientID).1.take i) t tbl := by
  have hq : (queryKeys svc tbl clientID).2 = none := by
    cases h : (queryKeys svc tbl clientID).2 with
    | none => rfl
    | some e2 =>
      rw [queryKeys_err_nil svc tbl clientID e2 h] at hi
      simp at hi
  rw [DeleteUserData_fail svc tbl clientID t i e hq hi hok hfail]
  exact ⟨rfl, rfl, rfl⟩

/-- The theorem of C10 at the test items, with the second update rejected:
the item of the first key keeps its new TTL. -/
theorem DeleteUserData_no_rollback_witness :
    (1 < (queryKeys secondUpdateFails testItems "client1").1.length) ∧
    (∀ j, j < 1 → secondUpdateFails.updateErr j = none) ∧
    secondUpdateFails.updateErr 1 = some (GoError.base "rejected") ∧
    (DeleteUserData secondUpdateFails testItems "client1" 12345678).err =
      some (Errorf "error updating ttl: " (GoError.base "rejected")) ∧
    ((DeleteUserData secondUpdateFails testItems "client1" 12345678).err.bind
      GoError.Unwrap) = some (GoError.base "rejected") ∧
    (DeleteUserData secondUpdateFails testItems "client1" 12345678).table =
      withTTL ((queryKeys secondUpdateFails testItems "client1").1.take 1) 12345678
        testItems :=
  ⟨by decide, by decide, by decide,
    DeleteUserData_no_rollback secondUpdateFails testItems "client1" 12345678 1
      (GoError.base "rejected") (by decide) (by decide) (by decide)⟩

end GoSyncAdm
